import Mathlib

/-!
Verification of the CRML portfolio-resolution and Monte-Carlo risk engine
(`crml_engine` + `crml_lang`).  Python sources are shallowly embedded:
floats become `ℚ` (all the arithmetic the claims touch is products, clamps,
sums and tolerance comparisons), Python dicts become association lists,
`None` becomes `Option`, raised exceptions become `Except.error`, and
randomness (numpy draws) is threaded in as explicit function arguments.
Each definition names the Python function it embeds.
-/

namespace Crml

/- ----------------------------------------------------------------
   Python keyword-call binding.

   Python raises `TypeError` when a call supplies a keyword argument
   that is not among the callee's parameter names.  We record parameter
   name lists and keyword lists verbatim from the source to reason
   about call-site/definition mismatches.
---------------------------------------------------------------- -/

/-- A Python call made purely with keyword arguments binds successfully
iff every supplied keyword names a declared parameter. -/
def pythonKwCallOk (paramNames kwargs : List String) : Bool :=
  kwargs.all (fun k => paramNames.contains k)

/-- Parameter names of `FrequencyEngine.generate_frequency`
(`crml_engine/simulation/frequency.py`, lines 12–19). -/
def generate_frequency_paramNames : List String :=
  ["freq_model", "params", "n_runs", "cardinality", "seed", "uniforms"]

/-- Keywords passed to `FrequencyEngine.generate_frequency` by
`_simulate_annual_losses` (`crml_engine/simulation/engine.py`, lines 205–213). -/
def simulate_annual_losses_frequency_kwargs : List String :=
  ["freq_model", "params", "n_runs", "cardinality", "seed", "uniforms",
   "rate_multiplier"]

/-- Parameter names of `SeverityEngine.generate_severity`
(`crml_engine/simulation/severity.py`, lines 46–54). -/
def generate_severity_paramNames : List String :=
  ["sev_model", "params", "components", "total_events", "fx_config"]

/-- Keywords passed to `SeverityEngine.generate_severity` by
`_simulate_annual_losses` (`crml_engine/simulation/engine.py`, lines 219–226). -/
def simulate_annual_losses_severity_kwargs : List String :=
  ["sev_model", "params", "components", "total_events", "fx_config", "seed"]

/-- Outcome of the body of `run_monte_carlo` past the input checks
(`crml_engine/simulation/engine.py`, lines 385–409): the `try` block runs
`_simulate_annual_losses`, whose first statement is the keyword call to
`FrequencyEngine.generate_frequency`; any exception is caught and turns
into a failure result (`success=False`, an error string appended). -/
def runMonteCarloSimulationSucceeds : Bool :=
  pythonKwCallOk generate_frequency_paramNames
    simulate_annual_losses_frequency_kwargs
  && pythonKwCallOk generate_severity_paramNames
    simulate_annual_losses_severity_kwargs

/- ----------------------------------------------------------------
   `_normalize_cardinality` (`crml_engine/simulation/engine.py`, 28–41).
---------------------------------------------------------------- -/

/-- A Python value in the position of the `cardinality` argument, as far as
`int(...)` coercion is concerned: either it is `None`, or `int(value)`
yields an integer, or `int(value)` raises. -/
structure PyCardArg where
  isNone : Bool
  /-- `some n` when `int(value)` returns `n`; `none` when `int(value)` raises. -/
  toIntResult : Option Int
deriving Repr, DecidableEq

/-- Embedding of `_normalize_cardinality`: `int(cardinality) if cardinality
is not None else 1` inside `try/except` (exceptions give `1`), then
`max(1, value)`. -/
def normalizeCardinality (a : PyCardArg) : Int :=
  let value : Int := if a.isNone then 1 else a.toIntResult.getD 1
  max 1 value

/- ----------------------------------------------------------------
   Control-state sampling and per-scenario multipliers
   (`crml_engine/runtime.py`).
---------------------------------------------------------------- -/

/-- Minimal control metadata collected by `_collect_control_info`
(`runtime.py`, 67–91): reliability (default 1.0) and affects
(default "frequency"). -/
structure ControlInfo where
  reliability : ℚ
  affects : String
deriving Repr, DecidableEq

/-- Association-list lookup standing in for Python `dict.get`. -/
def alistGet {α : Type} (m : List (String × α)) (k : String) : Option α :=
  (m.find? (fun p => p.1 = k)).map Prod.snd

/-- Python `str.lower()` for the ASCII strings used here (a structurally
recursive version of `String.toLower`). -/
def pyLower (s : String) : String := ⟨s.data.map Char.toLower⟩

/-- Embedding of `_sample_control_state` (`runtime.py`, 126–165).

Randomness is passed explicitly: `u` is the `(n_runs, d)` matrix of
copula uniforms produced by `gaussian_copula_uniforms` (one row per run),
and `rngDraws` supplies, for each entry of `control_info` in order, the
`n_runs` uniforms drawn by `rng.random(n_runs)` in the independent branch.

Faithful to the source: when `target_controls` is non-empty and a
correlation matrix is present, the function thresholds column `i` of `u`
against target `i`'s reliability and returns — only target controls
receive a state.  Otherwise every control in `control_info` gets an
independent Bernoulli(reliability) state. -/
def sampleControlState (controlInfo : List (String × ControlInfo))
    (targetControls : List String) (corrPresent : Bool)
    (u : List (List ℚ)) (rngDraws : List (List ℚ)) :
    List (String × List Bool) :=
  if targetControls ≠ [] ∧ corrPresent then
    targetControls.enum.map (fun ic =>
      let rel := ((alistGet controlInfo ic.2).map (·.reliability)).getD 1
      (ic.2, u.map (fun row => decide (row.getD ic.1 0 ≤ rel))))
  else
    (controlInfo.zip rngDraws).map (fun cr =>
      let rel := cr.1.2.reliability
      (cr.1.1, cr.2.map (fun x => decide (x ≤ rel))))

/-- A resolved scenario control as consumed by the runtime: the combined
values and effect surface of `ResolvedScenarioControl`
(`pipeline/portfolio_planner.py`, 22–74). -/
structure RuntimeControl where
  id : String
  combined_implementation_effectiveness : Option ℚ
  combined_coverage_value : Option ℚ
  combined_reliability : Option ℚ
  affects : Option String
deriving Repr, DecidableEq

/-- Embedding of `_control_multipliers_for_scenario` (`runtime.py`,
174–208).  `state` maps control id to its per-run availlabilities; a
missing entry falls back to `np.ones(n_runs)` (always available).
Returns per-run `(freq_mult, sev_mult)` vectors. -/
def controlMultipliersForScenario (controls : List RuntimeControl)
    (state : List (String × List Bool)) (nRuns : Nat) : List ℚ × List ℚ :=
  controls.foldl (fun acc ctrl =>
    let eff := ctrl.combined_implementation_effectiveness.getD 0
    let cov := ctrl.combined_coverage_value.getD 1
    let st : List Bool := (alistGet state ctrl.id).getD (List.replicate nRuns true)
    let reduction : List ℚ :=
      (List.range nRuns).map (fun i =>
        eff * cov * (if st.getD i true then 1 else 0))
    let affects := pyLower (ctrl.affects.getD "frequency")
    let freq :=
      if affects = "frequency" ∨ affects = "both" then
        (acc.1.zip reduction).map (fun p => p.1 * (1 - p.2))
      else acc.1
    let sev :=
      if affects = "severity" ∨ affects = "both" then
        (acc.2.zip reduction).map (fun p => p.1 * (1 - p.2))
      else acc.2
    (freq, sev))
    (List.replicate nRuns (1 : ℚ), List.replicate nRuns (1 : ℚ))

/- ----------------------------------------------------------------
   Portfolio aggregation (`runtime.py`, `_aggregate_portfolio_losses`,
   211–257).
---------------------------------------------------------------- -/

/-- Weight normalization in the mixture/choose_one branch of
`_aggregate_portfolio_losses` (`runtime.py`, 244–251).  A `none` weight
is the NaN the runtime uses for "unspecified"; any NaN makes the whole
vector fall back to ones, as does a non-positive sum; the result is then
divided by its sum. -/
def normalizeMixtureWeights (ws : List (Option ℚ)) (nScen : Nat) : List ℚ :=
  let weights : List ℚ :=
    if ws.any (·.isNone) then List.replicate nScen 1 else ws.map (·.getD 0)
  let wsum := weights.sum
  let weights := if wsum ≤ 0 then List.replicate nScen 1 else weights
  let wsum := weights.sum
  weights.map (· / wsum)

/-- Elementwise column reduction of the stacked `(n_scenarios, n_runs)`
matrix, trial `t` of `np.sum(stacked, axis=0)`. -/
def columnSum (losses : List (List ℚ)) (t : Nat) : ℚ :=
  (losses.map (fun row => row.getD t 0)).sum

/-- Trial `t` of `np.max(stacked, axis=0)` (maximum over scenarios). -/
def columnMax (losses : List (List ℚ)) (t : Nat) : ℚ :=
  (losses.map (fun row => row.getD t 0)).foldl max
    ((losses.head?.map (fun row => row.getD t 0)).getD 0)

/-- Embedding of `_aggregate_portfolio_losses` (`runtime.py`, 211–257).

`choice` models `rng.choice(n_scen, size=n_runs, replace=True, p=weights)`:
it receives the exact probability vector the code passes and yields the
scenario index drawn for each trial.  The result for trial `t` under
mixture semantics is `stacked[pick[t], t]`.  An unrecognized method raises
`ValueError`, modelled as `Except.error`. -/
def aggregatePortfolioLosses (semantics : String) (losses : List (List ℚ))
    (ws : List (Option ℚ)) (nRuns : Nat)
    (choice : List ℚ → Nat → Nat) : Except String (List ℚ) :=
  if semantics = "sum" then
    .ok ((List.range nRuns).map (columnSum losses))
  else if semantics = "max" then
    .ok ((List.range nRuns).map (columnMax losses))
  else if semantics = "mixture" ∨ semantics = "choose_one" then
    let p := normalizeMixtureWeights ws losses.length
    .ok ((List.range nRuns).map (fun t =>
      (losses.getD (choice p t) []).getD t 0))
  else
    .error ("Unsupported portfolio semantics '" ++ semantics ++ "'")

/- ----------------------------------------------------------------
   Portfolio planner data model (`crml_lang/models/portfolio_model.py`,
   `crml_lang/models/control_assessment_model.py`,
   `crml_engine/pipeline/portfolio_planner.py`).
---------------------------------------------------------------- -/

/-- `Coverage` (`crml_lang` coverage model; fields as read by the planner:
`coverage.value`, `coverage.basis`). -/
structure Coverage where
  value : ℚ
  basis : String
deriving Repr, DecidableEq

/-- `CriticalityIndex` (`portfolio_model.py`, 13–17); the planner only
reads `.type`. -/
structure CriticalityIndex where
  type : Option String
deriving Repr, DecidableEq

/-- `Asset` (`portfolio_model.py`, 20–29). -/
structure Asset where
  name : String
  cardinality : Int
  criticality_index : Option CriticalityIndex
  tags : Option (List String)
deriving Repr, DecidableEq

/-- `PortfolioControl` (`portfolio_model.py`, 76–87). -/
structure PortfolioControl where
  id : String
  implementation_effectiveness : Option ℚ
  coverage : Option Coverage
  reliability : Option ℚ
  affects : Option String
deriving Repr, DecidableEq

/-- `ControlAssessment` (`control_assessment_model.py`, 13–66): the same
posture fields keyed by control id. -/
structure ControlAssessment where
  id : String
  implementation_effectiveness : Option ℚ
  coverage : Option Coverage
  reliability : Option ℚ
  affects : Option String
deriving Repr, DecidableEq

/-- `ScenarioBinding` (`portfolio_model.py`, 44–47). -/
structure ScenarioBinding where
  applies_to_assets : Option (List String)
deriving Repr, DecidableEq

/-- `ScenarioRef` (`portfolio_model.py`, 50–55). -/
structure ScenarioRef where
  id : String
  path : String
  weight : Option ℚ
  binding : ScenarioBinding
deriving Repr, DecidableEq

/-- `DependencyCopula` (`portfolio_model.py`, 90–108).  The Python field
`structure` is spelled `struct` here (Lean keyword). -/
structure DependencyCopula where
  type : String
  targets : List String
  struct : Option String
  rho : Option ℚ
  matrix : Option (List (List ℚ))
deriving Repr, DecidableEq

/-- `PortfolioDependency` (`portfolio_model.py`, 111–112). -/
structure PortfolioDependency where
  copula : Option DependencyCopula
deriving Repr, DecidableEq

/-- `PortfolioSemantics` (`portfolio_model.py`, 39–41); constraints are
not consulted by the planner. -/
structure PortfolioSemantics where
  method : String
deriving Repr, DecidableEq

/-- `Portfolio` (`portfolio_model.py`, 115–…).  The `or []` defaults the
planner applies to `controls`, `control_catalogs`, `control_assessments`
are folded into the field types. -/
structure Portfolio where
  assets : List Asset
  controls : List PortfolioControl
  control_catalogs : List String
  control_assessments : List String
  scenarios : List ScenarioRef
  semantics : PortfolioSemantics
  dependency : Option PortfolioDependency
deriving Repr, DecidableEq

/-- One entry of `_scenario_controls_to_objects`'s result
(`portfolio_planner.py`, 187–219): `(id, eff_factor,
coverage_factor(value,basis), potency_factor)`. -/
structure CtrlNorm where
  id : String
  eff_factor : Option ℚ
  cov_factor : Option (ℚ × String)
  potency_factor : Option ℚ
deriving Repr, DecidableEq

/-- The part of a validated scenario document (`CRScenarioSchema`) that
the planner reads: `meta.name`, `scenario.frequency.basis`, and the
normalized `scenario.controls`. -/
structure ScenarioDoc where
  name : Option String
  basis : String
  controls_norm : List CtrlNorm
deriving Repr, DecidableEq

/-- Outcome of resolving and loading one scenario path: the planner's only
per-scenario I/O (`portfolio_planner.py`, 417–437): `os.path.exists`
failure, load/validation exception, or a validated document. -/
inductive ScenarioLoadOutcome where
  | notFound
  | invalid (msg : String)
  | ok (doc : ScenarioDoc)
deriving Repr, DecidableEq

/-- Outcome of loading one control-catalog pack
(`portfolio_planner.py`, 298–307). -/
inductive CatalogLoadOutcome where
  | notFound
  | invalid (msg : String)
  | ok (ids : List String)
deriving Repr, DecidableEq

/-- Outcome of loading one control-assessment pack
(`portfolio_planner.py`, 309–326). -/
inductive AssessLoadOutcome where
  | notFound
  | invalid (msg : String)
  | ok (assessments : List ControlAssessment)
deriving Repr, DecidableEq

/-- `PlanMessage` (`portfolio_planner.py`, 16–19). -/
structure PlanMessage where
  level : String
  path : String
  message : String
deriving Repr, DecidableEq

/-- `ResolvedScenarioControl` (`portfolio_planner.py`, 22–74). -/
structure ResolvedScenarioControl where
  id : String
  inventory_implementation_effectiveness : Option ℚ
  inventory_coverage_value : Option ℚ
  inventory_coverage_basis : Option String
  inventory_reliability : Option ℚ
  affects : Option String
  scenario_implementation_effectiveness_factor : Option ℚ
  scenario_coverage_factor : Option ℚ
  scenario_coverage_basis : Option String
  scenario_potency_factor : Option ℚ
  combined_implementation_effectiveness : Option ℚ
  combined_coverage_value : Option ℚ
  combined_reliability : Option ℚ
deriving Repr, DecidableEq

/-- `ResolvedScenario` (`portfolio_planner.py`, 77–97). -/
structure ResolvedScenario where
  id : String
  path : String
  resolved_path : Option String
  weight : Option ℚ
  applies_to_assets : List String
  cardinality : Int
  scenario_name : Option String
  controls : List ResolvedScenarioControl
deriving Repr, DecidableEq

/-- `PortfolioExecutionPlan` (`portfolio_planner.py`, 100–111); the
dependency payload is the normalized copula dict. -/
structure CopulaPlan where
  type : String
  targets : List String
  matrix : List (List ℚ)
deriving Repr, DecidableEq

/-- The execution plan assembled at `portfolio_planner.py`, 639–645. -/
structure PortfolioExecutionPlan where
  portfolio_name : Option String
  semantics_method : String
  assets : List Asset
  scenarios : List ResolvedScenario
  dependency : Option CopulaPlan
deriving Repr, DecidableEq

/-- `PlanReport` (`portfolio_planner.py`, 158–164). -/
structure PlanReport where
  ok : Bool
  errors : List PlanMessage
  warnings : List PlanMessage
  plan : Option PortfolioExecutionPlan
deriving Repr, DecidableEq

/- ----------------------------------------------------------------
   Planner helpers (`portfolio_planner.py`, 114–227).
---------------------------------------------------------------- -/

/-- Tolerance `1e-9` used by the matrix checks and weight checks. -/
def tol1e9 : ℚ := 1 / 1000000000

/-- `_is_control_state_ref` (`portfolio_planner.py`, 114–123). -/
def is_control_state_ref (ref : String) : Bool :=
  ref.startsWith "control:" && ref.endsWith ":state"
    && ((ref.drop 8).dropRight 6 ≠ "")

/-- `_extract_control_id_from_state_ref` (`portfolio_planner.py`, 126–127). -/
def extract_control_id_from_state_ref (ref : String) : String :=
  (ref.drop 8).dropRight 6

/-- `_toeplitz_corr` (`portfolio_planner.py`, 130–132): entry `(i,j)` is
`rho ^ |i - j|`. -/
def toeplitz_corr (dim : Nat) (rho : ℚ) : List (List ℚ) :=
  (List.range dim).map (fun i => (List.range dim).map (fun j => rho ^ (Nat.dist i j)))

/-- `_validate_corr_matrix` (`portfolio_planner.py`, 135–155).  Inputs are
already numbers in this embedding, so the float-coercion failure branch is
unreachable and omitted.  Returns the first failing check's message. -/
def validate_corr_matrix (matrix : List (List ℚ)) (dim : Nat) : Option String :=
  if matrix.length ≠ dim then some ("matrix must have " ++ toString dim ++ " rows")
  else
    let entryErr := (List.range dim).findSome? (fun i =>
      let row := matrix.getD i []
      if row.length ≠ dim then
        some ("matrix row " ++ toString i ++ " must have length " ++ toString dim)
      else (List.range dim).findSome? (fun j =>
        let v := row.getD j 0
        if i = j ∧ ¬ |v - 1| ≤ tol1e9 then some ("matrix diagonal entries must be 1.0")
        else if v < -1 ∨ v > 1 then some ("matrix entries must be in [-1, 1]")
        else none))
    match entryErr with
    | some e => some e
    | none =>
      (List.range dim).findSome? (fun i =>
        ((List.range dim).filter (fun j => i < j)).findSome? (fun j =>
          if ¬ |(matrix.getD i []).getD j 0 - (matrix.getD j []).getD i 0| ≤ tol1e9 then
            some ("matrix must be symmetric")
          else none))

/-- `_clamp01` (`portfolio_planner.py`, 222–223). -/
def clamp01 (x : ℚ) : ℚ := max 0 (min 1 x)

/-- `_distinct_non_none` (`portfolio_planner.py`, 226–227), as the list of
distinct non-`none` values. -/
def distinct_non_none {α : Type} [DecidableEq α] (values : List (Option α)) : List α :=
  (values.filterMap id).dedup

/-- Replacement-or-append insertion standing in for Python dict assignment
`d[k] = v` (used for `assessment_by_id` and `portfolio_controls_by_id`;
lookups only ever need the latest value). -/
def alistInsert {α : Type} (m : List (String × α)) (k : String) (v : α) :
    List (String × α) :=
  if m.any (fun p => p.1 = k) then
    m.map (fun p => if p.1 = k then (k, v) else p)
  else m ++ [(k, v)]

/- ----------------------------------------------------------------
   Pack loading (`portfolio_planner.py`, 283–326).
---------------------------------------------------------------- -/

/-- Catalog-pack loading loop (`portfolio_planner.py`, 298–307): collects
the set of known control ids (as a list) and per-pack errors.  `load` is
the injected filesystem: outcome of loading each listed path. -/
def loadCatalogs (paths : List String) (load : String → CatalogLoadOutcome) :
    List PlanMessage × List String :=
  (paths.enum).foldl (fun acc ip =>
    match load ip.2 with
    | .notFound =>
      (acc.1 ++ [⟨"error", "portfolio.control_catalogs[" ++ toString ip.1 ++ "]",
        "File not found: " ++ ip.2⟩], acc.2)
    | .invalid m =>
      (acc.1 ++ [⟨"error", "portfolio.control_catalogs[" ++ toString ip.1 ++ "]",
        "Invalid control catalog pack: " ++ m⟩], acc.2)
    | .ok ids => (acc.1, acc.2 ++ ids.filter (fun i => ¬ acc.2.contains i)))
    ([], [])

/-- Assessment-pack loading loop (`portfolio_planner.py`, 309–326):
builds `assessment_by_id` with last-wins semantics, warning on duplicate
ids across packs, and collecting per-pack errors. -/
def loadAssessments (paths : List String) (load : String → AssessLoadOutcome) :
    List PlanMessage × List PlanMessage × List (String × ControlAssessment) :=
  (paths.enum).foldl (fun acc ip =>
    match load ip.2 with
    | .notFound =>
      (acc.1 ++ [⟨"error", "portfolio.control_assessments[" ++ toString ip.1 ++ "]",
        "File not found: " ++ ip.2⟩], acc.2.1, acc.2.2)
    | .invalid m =>
      (acc.1 ++ [⟨"error", "portfolio.control_assessments[" ++ toString ip.1 ++ "]",
        "Invalid control assessment pack: " ++ m⟩], acc.2.1, acc.2.2)
    | .ok entries =>
      entries.foldl (fun acc2 a =>
        let dupWarn : List PlanMessage :=
          if acc2.2.2.any (fun p => p.1 = a.id) then
            [⟨"warning", "portfolio.control_assessments[" ++ toString ip.1 ++ "]",
              "Duplicate assessment for control id " ++ a.id ++ " across packs; last one wins."⟩]
          else []
        (acc2.1, acc2.2.1 ++ dupWarn, alistInsert acc2.2.2 a.id a)) acc)
    ([], [], [])

/-- Portfolio inventory construction (`portfolio_planner.py`, 328–339):
`portfolio_controls_by_id` plus unknown-catalog-id errors (raised only
when at least one catalog id is known). -/
def buildInventory (controls : List PortfolioControl) (catalog_ids : List String) :
    List PlanMessage × List (String × PortfolioControl) :=
  (controls.enum).foldl (fun acc ic =>
    let errs :=
      if catalog_ids ≠ [] ∧ ¬ catalog_ids.contains ic.2.id then
        acc.1 ++ [⟨"error", "portfolio.controls[" ++ toString ic.1 ++ "].id",
          "Unknown control id " ++ ic.2.id ++ " (not present in referenced catalog pack(s))."⟩]
      else acc.1
    (errs, alistInsert acc.2 ic.2.id ic.2))
    ([], [])

/- ----------------------------------------------------------------
   Dependency (copula) normalization (`portfolio_planner.py`, 343–412).
---------------------------------------------------------------- -/

/-- Dependency normalization: validates copula targets against the
inventory/assessments, builds the correlation matrix (explicit or
Toeplitz), validates it, and produces the normalized dependency payload.
Matches `portfolio_planner.py`, 343–412 (the same block recurs verbatim
in `plan_bundle`, 707–769). -/
def normalizeDependency (dependency : Option PortfolioDependency)
    (portfolio_controls_by_id : List (String × PortfolioControl))
    (assessment_by_id : List (String × ControlAssessment)) :
    List PlanMessage × Option CopulaPlan :=
  match dependency with
  | none => ([], none)
  | some dep =>
    match dep.copula with
    | none => ([], none)
    | some cop =>
      let targets := cop.targets
      let dim := targets.length
      let bad_targets := targets.filter (fun t => ¬ is_control_state_ref t)
      if bad_targets ≠ [] then
        ([⟨"error", "portfolio.dependency.copula.targets",
          "Unsupported target reference(s): " ++ toString bad_targets
            ++ ". Supported: control:<id>:state"⟩], none)
      else
        let target_control_ids := targets.map extract_control_id_from_state_ref
        let unknownErrs : List PlanMessage := target_control_ids.filterMap (fun t =>
          if ¬ portfolio_controls_by_id.any (fun p => p.1 = t)
              ∧ ¬ assessment_by_id.any (fun p => p.1 = t) then
            some ⟨"error", "portfolio.dependency.copula.targets",
              "Copula target control id " ++ t
                ++ " not found in portfolio.controls or control assessments."⟩
          else none)
        let corrAndErrs : Option (List (List ℚ)) × List PlanMessage :=
          match cop.matrix with
          | some m => (some m, [])
          | none =>
            let structErrs : List PlanMessage :=
              if cop.struct ≠ none ∧ cop.struct ≠ some "toeplitz" then
                [⟨"error", "portfolio.dependency.copula.structure",
                  "Unsupported copula structure " ++ (cop.struct.getD "") ++ "."⟩]
              else []
            match cop.rho with
            | none =>
              (none, structErrs ++ [⟨"error", "portfolio.dependency.copula.rho",
                "Toeplitz copula requires rho when matrix is not provided."⟩])
            | some rho => (some (toeplitz_corr dim rho), structErrs)
        match corrAndErrs.1 with
        | none => (unknownErrs ++ corrAndErrs.2, none)
        | some corr =>
          match validate_corr_matrix corr dim with
          | some e =>
            (unknownErrs ++ corrAndErrs.2
              ++ [⟨"error", "portfolio.dependency.copula", e⟩], none)
          | none =>
            (unknownErrs ++ corrAndErrs.2, some ⟨cop.type, targets, corr⟩)

/- ----------------------------------------------------------------
   Per-scenario control resolution (`portfolio_planner.py`, 524–621).
---------------------------------------------------------------- -/

/-- Inventory values for a referenced control id: the portfolio entry
takes precedence over the assessment entry
(`portfolio_planner.py`, 536–558).  Result:
`(inventory_eff, inventory_cov_val, inventory_cov_basis, inventory_rel, affects)`. -/
def inventoryLookup (portfolio_controls_by_id : List (String × PortfolioControl))
    (assessment_by_id : List (String × ControlAssessment)) (cid : String) :
    Option ℚ × Option ℚ × Option String × Option ℚ × Option String :=
  match alistGet portfolio_controls_by_id cid with
  | some inv =>
    (inv.implementation_effectiveness, inv.coverage.map (·.value),
      inv.coverage.map (·.basis), inv.reliability, inv.affects)
  | none =>
    match alistGet assessment_by_id cid with
    | some a =>
      (a.implementation_effectiveness, a.coverage.map (·.value),
        a.coverage.map (·.basis), a.reliability, a.affects)
    | none => (none, none, none, none, none)

/-- Resolution of one normalized scenario-control reference
(`portfolio_planner.py`, 529–621 loop body): either the
missing-inventory error, or the resolved control together with the
coverage-basis-mismatch warnings appended after it. -/
def resolveControl (portfolio_controls_by_id : List (String × PortfolioControl))
    (assessment_by_id : List (String × ControlAssessment)) (idx : Nat)
    (cn : CtrlNorm) : Except PlanMessage (ResolvedScenarioControl × List PlanMessage) :=
  let inv5 := inventoryLookup portfolio_controls_by_id assessment_by_id cn.id
  let inventory_eff := inv5.1
  let inventory_cov_val := inv5.2.1
  let inventory_cov_basis := inv5.2.2.1
  let inventory_rel := inv5.2.2.2.1
  let affects := inv5.2.2.2.2
  if inventory_eff = none ∧ inventory_cov_val = none then
    .error ⟨"error", "portfolio.scenarios[" ++ toString idx ++ "].path",
      "Scenario references control id " ++ cn.id
        ++ " but no inventory/assessment data is available for it."⟩
  else
    let eff_factor := cn.eff_factor
    let pot_factor := cn.potency_factor
    let cov_factor_val := cn.cov_factor.map Prod.fst
    let cov_factor_basis := cn.cov_factor.map Prod.snd
    let combined_eff := inventory_eff.map (fun e =>
      clamp01 (e * (eff_factor.getD 1) * (pot_factor.getD 1)))
    let combined_cov := inventory_cov_val.map (fun v =>
      clamp01 (v * (cov_factor_val.getD 1)))
    let combined_rel := clamp01 (inventory_rel.getD 1)
    let ctrl : ResolvedScenarioControl :=
      ⟨cn.id, inventory_eff, inventory_cov_val, inventory_cov_basis,
        inventory_rel, affects, eff_factor, cov_factor_val, cov_factor_basis,
        pot_factor, combined_eff, combined_cov, some combined_rel⟩
    let mismatchWarn : List PlanMessage :=
      match inventory_cov_basis, cov_factor_basis with
      | some b1, some b2 =>
        if b1 ≠ "" ∧ b2 ≠ "" ∧ b1 ≠ b2 then
          [⟨"warning", "portfolio.scenarios[" ++ toString idx ++ "].path",
            "Control " ++ cn.id
              ++ " combines coverage with different bases. Treating scenario coverage as a pure factor."⟩]
        else []
      | _, _ => []
    .ok (ctrl, mismatchWarn)

/-- The control-resolution loop (`portfolio_planner.py`, 529–621):
errors continue to the next reference; resolved controls and warnings
accumulate in order. -/
def resolveControls (portfolio_controls_by_id : List (String × PortfolioControl))
    (assessment_by_id : List (String × ControlAssessment)) (idx : Nat) :
    List CtrlNorm → List PlanMessage × List PlanMessage × List ResolvedScenarioControl
  | [] => ([], [], [])
  | cn :: rest =>
    let tail := resolveControls portfolio_controls_by_id assessment_by_id idx rest
    match resolveControl portfolio_controls_by_id assessment_by_id idx cn with
    | .error e => (e :: tail.1, tail.2.1, tail.2.2)
    | .ok (c, w) => (tail.1, w ++ tail.2.1, c :: tail.2.2)

/- ----------------------------------------------------------------
   Per-scenario planning (`portfolio_planner.py`, 414–634 loop body).
---------------------------------------------------------------- -/

/-- Result of planning one `ScenarioRef`: accumulated errors and warnings
plus the resolved scenario when no step bailed out with `continue`. -/
structure ScenarioPlanResult where
  errors : List PlanMessage
  warnings : List PlanMessage
  resolved : Option ResolvedScenario
deriving Repr, DecidableEq

/-- Planning of one scenario reference (`portfolio_planner.py`, 414–634),
with the document load injected as `outcome` (`source_kind="data"`, so
`base_dir` is `None` and `_resolve_path` is the identity): load errors,
binding resolution (default = all assets), basis warning, unknown-asset
check, cardinality computation with its two heuristic warnings, and
control resolution. -/
def planScenario (assets_by_name : List (String × Asset)) (all_asset_names : List String)
    (portfolio_controls_by_id : List (String × PortfolioControl))
    (assessment_by_id : List (String × ControlAssessment))
    (idx : Nat) (sref : ScenarioRef) (outcome : ScenarioLoadOutcome) :
    ScenarioPlanResult :=
  match outcome with
  | .notFound =>
    ⟨[⟨"error", "portfolio.scenarios[" ++ toString idx ++ "].path",
      "Scenario file not found: " ++ sref.path⟩], [], none⟩
  | .invalid m =>
    ⟨[⟨"error", "portfolio.scenarios[" ++ toString idx ++ "].path",
      "Invalid scenario document: " ++ m⟩], [], none⟩
  | .ok doc =>
    let applies_to_assets := sref.binding.applies_to_assets
    let applies_to_assets_list := applies_to_assets.getD all_asset_names
    let basisWarn : List PlanMessage :=
      if doc.basis = "per_organization_per_year" ∧ applies_to_assets ≠ none then
        [⟨"warning",
          "portfolio.scenarios[" ++ toString idx ++ "].binding.applies_to_assets",
          "Scenario frequency basis is per_organization_per_year; asset binding does not affect cardinality (cardinality stays 1). If you intended per-asset scaling, consider per_asset_unit_per_year."⟩]
      else []
    let unknown_assets := applies_to_assets_list.filter
      (fun a => ¬ assets_by_name.any (fun p => p.1 = a))
    if unknown_assets ≠ [] then
      ⟨[⟨"error",
        "portfolio.scenarios[" ++ toString idx ++ "].binding.applies_to_assets",
        "Unknown asset(s) referenced: " ++ toString unknown_assets⟩], basisWarn, none⟩
    else
      let cardResult : Except PlanMessage (Int × List PlanMessage) :=
        if doc.basis = "per_asset_unit_per_year" then
          if applies_to_assets_list = [] then
            .error ⟨"error",
              "portfolio.scenarios[" ++ toString idx ++ "].binding.applies_to_assets",
              "Scenario uses per_asset_unit_per_year but no assets are bound (empty applies_to_assets)."⟩
          else
            let cardinality := (applies_to_assets_list.map (fun a =>
              ((alistGet assets_by_name a).map (·.cardinality)).getD 0)).sum
            let bigWarn : List PlanMessage :=
              if cardinality ≥ 100000 then
                [⟨"warning", "portfolio.scenarios[" ++ toString idx ++ "]",
                  "Scenario expands to total cardinality=" ++ toString cardinality
                    ++ " (per-asset-unit basis). Linear scaling can be sensitive to correlation/shared-failure modes at large scales; treat results as an approximation."⟩]
              else []
            let bound_assets := applies_to_assets_list.filterMap (alistGet assets_by_name)
            let distinct_tag_sets := distinct_non_none (bound_assets.map (fun a =>
              a.tags.map (fun ts => ts.dedup.mergeSort (fun x y => x ≤ y))))
            let distinct_crit_types := distinct_non_none (bound_assets.map (fun a =>
              a.criticality_index.bind (·.type)))
            let hetWarn : List PlanMessage :=
              if distinct_tag_sets.length > 1 ∨ distinct_crit_types.length > 1 then
                [⟨"warning",
                  "portfolio.scenarios[" ++ toString idx ++ "].binding.applies_to_assets",
                  "Bound assets appear heterogeneous (different tags and/or criticality_index.type). Summed-cardinality scaling assumes comparable/exchangeable exposure units; consider splitting scenarios or modeling heterogeneity explicitly."⟩]
              else []
            .ok (cardinality, bigWarn ++ hetWarn)
        else
          .ok (1, [])
      match cardResult with
      | .error e => ⟨[e], basisWarn, none⟩
      | .ok (cardinality, cardWarns) =>
        let ctrls := resolveControls portfolio_controls_by_id assessment_by_id idx
          doc.controls_norm
        ⟨ctrls.1, basisWarn ++ cardWarns ++ ctrls.2.1,
          some ⟨sref.id, sref.path, some sref.path, sref.weight,
            applies_to_assets_list, cardinality, doc.name, ctrls.2.2⟩⟩

/- ----------------------------------------------------------------
   `plan_portfolio` main body for an already-validated document
   (`portfolio_planner.py`, 278–647, `source_kind="data"` so `base_dir`
   is `None` and every `_resolve_path` is the identity).  The three
   filesystem touchpoints (catalog packs, assessment packs, scenario
   documents) are injected as loading functions.
---------------------------------------------------------------- -/

/-- The planner body after schema validation: builds packs and inventory,
normalizes the dependency, plans each scenario, and assembles the plan
only when the accumulated error list is empty
(`portfolio_planner.py`, 278–647). -/
def planPortfolioDoc (meta_name : Option String) (portfolio : Portfolio)
    (catalogLoad : String → CatalogLoadOutcome)
    (assessLoad : String → AssessLoadOutcome)
    (scenarioLoad : String → ScenarioLoadOutcome) : PlanReport :=
  let assets_by_name := portfolio.assets.map (fun a => (a.name, a))
  let all_asset_names := portfolio.assets.map (·.name)
  let catalog_paths := portfolio.control_catalogs.filter (· ≠ "")
  let assessment_paths := portfolio.control_assessments.filter (· ≠ "")
  let cat := loadCatalogs catalog_paths catalogLoad
  let ass := loadAssessments assessment_paths assessLoad
  let inv := buildInventory portfolio.controls cat.2
  let dep := normalizeDependency portfolio.dependency inv.2 ass.2.2
  let scenarioResults := portfolio.scenarios.enum.map (fun is =>
    planScenario assets_by_name all_asset_names inv.2 ass.2.2 is.1 is.2
      (scenarioLoad is.2.path))
  let errors := cat.1 ++ ass.1 ++ inv.1 ++ dep.1
    ++ (scenarioResults.map (·.errors)).flatten
  let warnings := ass.2.1 ++ (scenarioResults.map (·.warnings)).flatten
  let resolved_scenarios := scenarioResults.filterMap (·.resolved)
  if errors ≠ [] then
    ⟨false, errors, warnings, none⟩
  else
    ⟨true, [], warnings,
      some ⟨meta_name, portfolio.semantics.method, portfolio.assets,
        resolved_scenarios, dep.2⟩⟩

/- ----------------------------------------------------------------
   `plan_portfolio` input handling (`portfolio_planner.py`, 246–276).
---------------------------------------------------------------- -/

/-- Result of `yaml.safe_load` on a source text: an exception, a non-dict
document, or a mapping. -/
inductive YamlParse where
  | parseError (msg : String)
  | nonMapping
  | mapping
deriving Repr, DecidableEq

/-- Result of `CRPortfolioSchema.model_validate` on the parsed mapping. -/
inductive SchemaOutcome where
  | invalid (msg : String)
  | valid
deriving Repr, DecidableEq

/-- Embedding of the entry of `plan_portfolio`
(`portfolio_planner.py`, 246–276) for string sources.  `ioFail` models an
exception while opening/reading a path.  A Lean `Except.error` models an
exception escaping `plan_portfolio` to its caller.

For `source_kind="path"`, `_load_yaml_file` (167–178) raises on I/O,
parse and non-mapping failures and the call site wraps it in
`try/except`, converting every failure into a `PlanReport`.  For
`source_kind="yaml"`, `yaml.safe_load(source)` at line 265 is *not*
wrapped, so a YAML parse error escapes; only the non-mapping case is
handled structurally.  Schema validation (273–276) is wrapped for both.
`rest` is the report the remainder of the function produces when the
document is valid. -/
def planPortfolioEntry (source_kind : String) (ioFail : Option String)
    (parse : YamlParse) (schema : SchemaOutcome) (rest : PlanReport) :
    Except String PlanReport :=
  let schemaStep : Except String PlanReport :=
    match schema with
    | .invalid m => .ok ⟨false, [⟨"error", "(schema)", m⟩], [], none⟩
    | .valid => .ok rest
  if source_kind = "path" then
    match ioFail with
    | some m => .ok ⟨false, [⟨"error", "(io)", m⟩], [], none⟩
    | none =>
      match parse with
      | .parseError m => .ok ⟨false, [⟨"error", "(io)", m⟩], [], none⟩
      | .nonMapping =>
        .ok ⟨false, [⟨"error", "(io)",
          "YAML document must be a mapping/object at top-level"⟩], [], none⟩
      | .mapping => schemaStep
  else if source_kind = "yaml" then
    match parse with
    | .parseError m => .error m
    | .nonMapping =>
      .ok ⟨false, [⟨"error", "(root)", "YAML must be a mapping"⟩], [], none⟩
    | .mapping => schemaStep
  else
    schemaStep

/- ----------------------------------------------------------------
   Severity parameter handling (`crml_engine/simulation/severity.py`,
   lognormal branch of `generate_severity`, 73–125, and
   `calibrate_lognormal_from_single_losses`, 12–44).
---------------------------------------------------------------- -/

/-- `SeverityParameters` (`crml_lang/models/crml_model.py`, 134–176),
restricted to the fields the lognormal branch reads.  The model carries
no cross-field validator: any combination of fields is accepted. -/
structure SeverityParameters where
  median : Option ℚ
  currency : Option String
  mu : Option ℚ
  sigma : Option ℚ
  single_losses : Option (List ℚ)
deriving Repr, DecidableEq

/-- How the lognormal branch of `generate_severity` resolves its
parameters.  `fromCalibration` is the `single_losses` branch succeeding
(mu/sigma derived from the base-currency losses); `zerosCalibrationFailed`
is that branch swallowing a calibration exception and returning
`np.zeros`; `fromDirect` carries the base-currency median (when `median`
was used), the raw `mu` (when `mu` was used) and sigma; `raised` is a
`ValueError` escaping. -/
inductive LognormalOutcome where
  | fromCalibration (losses_base : List ℚ)
  | zerosCalibrationFailed
  | fromDirect (median_base : Option ℚ) (mu_in : Option ℚ) (sigma_ : ℚ)
  | raised (msg : String)
deriving Repr, DecidableEq

/-- Python `currency or base`: an absent or empty currency string falls
back to the base currency. -/
def currencyOr (currency : Option String) (base : String) : String :=
  match currency with
  | some c => if c = "" then base else c
  | none => base

/-- Embedding of the parameter-resolution logic of the lognormal branch
of `SeverityEngine.generate_severity` (`severity.py`, 73–125), with
`calibrate_lognormal_from_single_losses` (12–44) inlined.  `convert`
models `convert_currency(value, from, to, fx_config)`.

Faithful to the source: when `single_losses` is present the calibration
branch is taken unconditionally — `median`, `mu` and `sigma` are never
examined — and a calibration failure is swallowed into zeros.  Only in
the no-`single_losses` branch are the direct parameters validated
(median+mu together raises; neither raises; falsy or non-positive sigma
raises). -/
def lognormalResolveParams (params : SeverityParameters) (base_currency : String)
    (convert : ℚ → String → String → ℚ) : LognormalOutcome :=
  match params.single_losses with
  | some losses =>
    if losses.length < 2 then .zerosCalibrationFailed
    else
      let sev_currency := currencyOr params.currency base_currency
      let losses_base := losses.map (fun v => convert v sev_currency base_currency)
      if losses_base.any (· ≤ 0) then .zerosCalibrationFailed
      else .fromCalibration losses_base
  | none =>
    let sev_currency := currencyOr params.currency base_currency
    if params.median ≠ none ∧ params.mu ≠ none then
      .raised ("Cannot use both median and mu. Choose one (median is recommended).")
    else
      let muStep : Except String (Option ℚ × Option ℚ) :=
        match params.median with
        | some m =>
          let median_val := convert m sev_currency base_currency
          if median_val ≤ 0 then
            .error ("Median parameter must be positive. Got: " ++ toString median_val)
          else .ok (some median_val, none)
        | none =>
          match params.mu with
          | some mu_in => .ok (none, some mu_in)
          | none =>
            .error ("Lognormal distribution requires either median or mu (or provide single_losses for auto-calibration)")
      match muStep with
      | .error m => .raised m
      | .ok (median_base, mu_in) =>
        match params.sigma with
        | none => .raised ("Lognormal distribution requires sigma")
        | some s =>
          if s = 0 then .raised ("Lognormal distribution requires sigma")
          else if s ≤ 0 then .raised ("Sigma parameter must be positive")
          else .fromDirect median_base mu_in s

/- ----------------------------------------------------------------
   Portfolio weight validation (`crml_lang/validator.py`,
   `validate_crml_portfolio` weight-semantics block, 814–850).
---------------------------------------------------------------- -/

/-- `ValidationMessage` restricted to the fields the weight block sets. -/
structure ValidationMessage where
  level : String
  source : String
  path : String
  message : String
deriving Repr, DecidableEq

/-- Embedding of the "Weight semantics" block of `validate_crml_portfolio`
(`validator.py`, 814–850): only for method `mixture`/`choose_one`, an
error when any scenario omits `weight`, and an error when the sum of the
present weights differs from 1.0 by more than `1e-9`. -/
def weightSemanticsMessages (method : String) (weights : List (Option ℚ)) :
    List ValidationMessage :=
  if method = "mixture" ∨ method = "choose_one" then
    let missing_weight_idx := (weights.enum.filter (fun iw => iw.2.isNone)).map (·.1)
    let missingMsgs : List ValidationMessage :=
      if missing_weight_idx ≠ [] then
        [⟨"error", "semantic", "portfolio -> scenarios",
          "All scenarios must define weight when portfolio.semantics.method is "
            ++ method ++ ". Missing at indices: " ++ toString missing_weight_idx⟩]
      else []
    let weight_sum := (weights.filterMap id).sum
    let sumMsgs : List ValidationMessage :=
      if ¬ |weight_sum - 1| ≤ tol1e9 then
        [⟨"error", "semantic", "portfolio -> scenarios -> weight",
          "Scenario weights must sum to 1.0 for method " ++ method
            ++ " (got " ++ toString weight_sum ++ ")."⟩]
      else []
    missingMsgs ++ sumMsgs
  else []

end Crml

/- ----------------------------------------------------------------
   Concrete inputs used by the counterexamples and witnesses below.
---------------------------------------------------------------- -/

/- ----------------------------------------------------------------
   C2
---------------------------------------------------------------- -/
/-- Concrete control info for the C2 inputs: control `ctl-a` with
reliability 0.5 and control `ctl-b` with reliability 0 (never up under
Bernoulli sampling). -/
def c2info : List (String × Crml.ControlInfo) :=
  [("ctl-a", ⟨1/2, "frequency"⟩), ("ctl-b", ⟨0, "frequency"⟩)]

/-- Copula uniforms for 2 runs over 1 target. -/
def c2u : List (List ℚ) := [[3/10], [7/10]]

/-- Independent draws (unused in the copula branch). -/
def c2r : List (List ℚ) := [[9/10, 9/10], [9/10, 9/10]]

/-- Runtime view of control `ctl-b`: full effectiveness and coverage,
reliability 0, affecting frequency. -/
def c2ctrlB : Crml.RuntimeControl := ⟨"ctl-b", some 1, some 1, some 0, some "frequency"⟩

/- ----------------------------------------------------------------
   C8
---------------------------------------------------------------- -/
/-- The C8 scenario parameters: both direct lognormal parameters
(`median=1000`, `sigma=0.5`) and the `single_losses` calibration list. -/
def c8params : Crml.SeverityParameters :=
  ⟨some 1000, none, none, some (1/2), some [100, 200]⟩

/-- Identity currency conversion (base currency inputs). -/
def c8convert : ℚ → String → String → ℚ := fun v _ _ => v

/-- The concrete mixture portfolio with two unweighted scenarios. -/
def c6portfolio : Crml.Portfolio :=
  { assets := [⟨"srv", 1, none, none⟩]
    controls := []
    control_catalogs := []
    control_assessments := []
    scenarios := [⟨"s1", "s1.yaml", none, ⟨none⟩⟩, ⟨"s2", "s2.yaml", none, ⟨none⟩⟩]
    semantics := ⟨"mixture"⟩
    dependency := none }

/-- Scenario loader: both referenced documents load and validate. -/
def c6scenarioLoad : String → Crml.ScenarioLoadOutcome :=
  fun _ => .ok ⟨some "S", "per_organization_per_year", []⟩

/-- Catalog loader (no catalogs are referenced). -/
def c6catalogLoad : String → Crml.CatalogLoadOutcome := fun _ => .ok []

/-- Assessment loader (no assessments are referenced). -/
def c6assessLoad : String → Crml.AssessLoadOutcome := fun _ => .ok []

/- ----------------------------------------------------------------
   C4
---------------------------------------------------------------- -/
/-- A portfolio with two independent defects: a missing catalog pack and
a missing scenario file. -/
def c4portfolio : Crml.Portfolio :=
  { assets := [⟨"srv", 1, none, none⟩]
    controls := []
    control_catalogs := ["packs/catalog.yaml"]
    control_assessments := []
    scenarios := [⟨"s1", "missing.yaml", none, ⟨none⟩⟩]
    semantics := ⟨"sum"⟩
    dependency := none }

/-- Loader reporting every catalog path as missing. -/
def c4catalogLoad : String → Crml.CatalogLoadOutcome := fun _ => .notFound

/-- Loader reporting every scenario path as missing. -/
def c4scenarioLoad : String → Crml.ScenarioLoadOutcome := fun _ => .notFound

/-- Assessment loader (no assessments are referenced). -/
def c4assessLoad : String → Crml.AssessLoadOutcome := fun _ => .ok []

/-- Concrete two-asset inventory for the C3 witness. -/
def c3assets : List (String × Crml.Asset) :=
  [("a1", ⟨"a1", 10, none, none⟩), ("a2", ⟨"a2", 5, none, none⟩)]

/-- Scenario reference bound to both assets. -/
def c3sref : Crml.ScenarioRef := ⟨"s1", "s1.yaml", none, ⟨some ["a1", "a2"]⟩⟩

/-- Scenario reference with an explicitly empty binding. -/
def c3srefEmpty : Crml.ScenarioRef := ⟨"s1", "s1.yaml", none, ⟨some []⟩⟩

/-- A per-asset-unit scenario document without controls. -/
def c3doc : Crml.ScenarioDoc := ⟨some "S", "per_asset_unit_per_year", []⟩

/-- The resolved scenario expected for `c3sref` (cardinality 10+5). -/
def c3rs : Crml.ResolvedScenario :=
  ⟨"s1", "s1.yaml", some "s1.yaml", none, ["a1", "a2"], 15, some "S", []⟩

/- ----------------------------------------------------------------
   C9
---------------------------------------------------------------- -/
/-- The combined-value contract of a resolved scenario control: each
combined value is the clamped product of its inventory value with the
scenario factors (missing factors defaulting to 1), reliability defaults
to 1, and every present combined value lies in `[0, 1]`. -/
def combinedOk (c : Crml.ResolvedScenarioControl) : Prop :=
  c.combined_implementation_effectiveness
      = c.inventory_implementation_effectiveness.map (fun e =>
          Crml.clamp01 (e * (c.scenario_implementation_effectiveness_factor.getD 1)
            * (c.scenario_potency_factor.getD 1)))
  ∧ c.combined_coverage_value
      = c.inventory_coverage_value.map (fun v =>
          Crml.clamp01 (v * (c.scenario_coverage_factor.getD 1)))
  ∧ c.combined_reliability = some (Crml.clamp01 (c.inventory_reliability.getD 1))
  ∧ (∀ x, c.combined_implementation_effectiveness = some x → 0 ≤ x ∧ x ≤ 1)
  ∧ (∀ x, c.combined_coverage_value = some x → 0 ≤ x ∧ x ≤ 1)
  ∧ (∀ x, c.combined_reliability = some x → 0 ≤ x ∧ x ≤ 1)

/-- Concrete portfolio for the C9 witness: one asset, one inventory
control, one scenario with a scenario-scoped effectiveness factor. -/
def c9portfolio : Crml.Portfolio :=
  { assets := [⟨"srv", 2, none, none⟩]
    controls := [⟨"cap:edr", some (3/5), some ⟨1, "applications"⟩, some (9/10),
      some "frequency"⟩]
    control_catalogs := []
    control_assessments := []
    scenarios := [⟨"s1", "s1.yaml", some 1, ⟨none⟩⟩]
    semantics := ⟨"sum"⟩
    dependency := none }

/-- Scenario loader for the C9 witness. -/
def c9scenarioLoad : String → Crml.ScenarioLoadOutcome :=
  fun _ => .ok ⟨some "S", "per_organization_per_year",
    [⟨"cap:edr", some (1/2), none, none⟩]⟩

/-- Catalog loader for the C9 witness. -/
def c9catalogLoad : String → Crml.CatalogLoadOutcome := fun _ => .ok []

/-- Assessment loader for the C9 witness. -/
def c9assessLoad : String → Crml.AssessLoadOutcome := fun _ => .ok []

/-- The resolved control the plan is expected to contain:
`combined_eff = clamp01(0.6×0.5×1) = 0.3`, `combined_cov = 1`,
`combined_rel = 0.9`. -/
def c9ctrl : Crml.ResolvedScenarioControl :=
  ⟨"cap:edr", some (3/5), some 1, some "applications", some (9/10),
    some "frequency", some (1/2), none, none, none, some (3/10), some 1,
    some (9/10)⟩

/-- The resolved scenario the plan is expected to contain. -/
def c9rs : Crml.ResolvedScenario :=
  ⟨"s1", "s1.yaml", some "s1.yaml", some 1, ["srv"], 1, some "S", [c9ctrl]⟩

/-- The expected execution plan for the C9 witness portfolio. -/
def c9plan : Crml.PortfolioExecutionPlan :=
  ⟨some "P", "sum", c9portfolio.assets, [c9rs], none⟩

/-- C1: the spec claims every supported frequency model honors a
`rate_multiplier` argument of `FrequencyEngine.generate_frequency`.  In the
code, `generate_frequency` declares no such parameter, while
`_simulate_annual_losses` always passes the keyword `rate_multiplier`
(even when the caller supplied no multiplier), so the call raises
`TypeError` and `run_monte_carlo` always returns `success=False`. -/
theorem C1_generate_frequency_lacks_rate_multiplier :
    "rate_multiplier" ∈ Crml.simulate_annual_losses_frequency_kwargs
    ∧ "rate_multiplier" ∉ Crml.generate_frequency_paramNames
    ∧ Crml.pythonKwCallOk Crml.generate_frequency_paramNames
        Crml.simulate_annual_losses_frequency_kwargs = false
    ∧ Crml.runMonteCarloSimulationSucceeds = false := by
  decide

/- ----------------------------------------------------------------
   Shared helper lemmas.
---------------------------------------------------------------- -/
/-- `foldl max` dominates its seed and every list element. -/
theorem foldl_max_is_ub (a : ℚ) (l : List ℚ) :
    a ≤ l.foldl max a ∧ ∀ x ∈ l, x ≤ l.foldl max a := by
  induction l generalizing a with
  | nil => exact ⟨le_refl a, by simp⟩
  | cons x xs ih =>
    rw [List.foldl_cons]
    refine ⟨le_trans (le_max_left a x) (ih (max a x)).1, ?_⟩
    intro y hy
    rcases List.mem_cons.mp hy with h | h
    · subst h
      exact le_trans (le_max_right a y) (ih (max a y)).1
    · exact (ih (max a x)).2 y h

/-- `foldl max` returns its seed or one of the list elements. -/
theorem foldl_max_mem (a : ℚ) (l : List ℚ) :
    l.foldl max a = a ∨ l.foldl max a ∈ l := by
  induction l generalizing a with
  | nil => exact Or.inl rfl
  | cons x xs ih =>
    rcases ih (max a x) with h | h
    · rcases max_choice a x with hm | hm
      · exact Or.inl (by rw [List.foldl_cons, h, hm])
      · exact Or.inr (by rw [List.foldl_cons, h, hm]; exact List.mem_cons_self x xs)
    · exact Or.inr (List.mem_cons_of_mem x h)

/-- Indexing a mapped range below the bound. -/
theorem getD_map_range (f : Nat → ℚ) (n t : Nat) (h : t < n) :
    ((List.range n).map f).getD t 0 = f t := by
  rw [List.getD_eq_getElem?_getD, List.getElem?_map, List.getElem?_range h]
  rfl

/-- `clamp01` stays within `[0, 1]`. -/
theorem clamp01_mem_unit (x : ℚ) : 0 ≤ Crml.clamp01 x ∧ Crml.clamp01 x ≤ 1 := by
  unfold Crml.clamp01
  constructor
  · exact le_max_left 0 _
  · exact max_le (by norm_num) (min_le_left 1 x)

/- ----------------------------------------------------------------
   C10
---------------------------------------------------------------- -/
/-- C10: `_normalize_cardinality` never fails and always yields
`max(1, int(cardinality))`, with `None` and non-`int()`-convertible
inputs silently treated as `1`; the result is always at least 1, so
`run_monte_carlo` (which passes its `cardinality` argument through this
function before use) cannot fail on account of the cardinality value. -/
theorem C10_normalize_cardinality (a : Crml.PyCardArg) :
    1 ≤ Crml.normalizeCardinality a
    ∧ (∀ n : Int, a = ⟨false, some n⟩ → Crml.normalizeCardinality a = max 1 n)
    ∧ (a.isNone = true ∨ a.toIntResult = none → Crml.normalizeCardinality a = 1) := by
  obtain ⟨isN, ti⟩ := a
  refine ⟨?_, ?_, ?_⟩
  · cases isN <;> cases ti <;> simp [Crml.normalizeCardinality]
  · intro n hn
    cases hn
    simp [Crml.normalizeCardinality]
  · intro h
    rcases h with h | h
    · simp at h
      subst h
      simp [Crml.normalizeCardinality]
    · simp at h
      subst h
      cases isN <;> simp [Crml.normalizeCardinality]

/-- C10 witness: a negative convertible input is clamped to 1. -/
theorem C10_normalize_cardinality_witness :
    Crml.normalizeCardinality ⟨false, some (-5)⟩ = max 1 (-5) :=
  (C10_normalize_cardinality ⟨false, some (-5)⟩).2.1 (-5) rfl

/- ----------------------------------------------------------------
   C5
---------------------------------------------------------------- -/
/-- C5: `_aggregate_portfolio_losses` computes per-trial sums for
`sum`, per-trial maxima for `max`; for `mixture`/`choose_one` each
trial receives exactly one scenario's loss for that trial, the scenario
index being drawn categorically with the probability vector the code
passes to `rng.choice`; that vector is the normalized weights when all
weights are present with positive sum, and uniform when any weight is
missing or the sum is non-positive; any other method raises a
`ValueError`. -/
theorem C5_aggregate_portfolio_losses (losses : List (List ℚ))
    (ws : List (Option ℚ)) (nRuns : Nat) (choice : List ℚ → Nat → Nat)
    (hne : losses ≠ [])
    (hpick : ∀ p t, choice p t < losses.length) :
    Crml.aggregatePortfolioLosses "sum" losses ws nRuns choice
      = .ok ((List.range nRuns).map (fun t =>
          (losses.map (fun row => row.getD t 0)).sum))
    ∧ (∀ r, Crml.aggregatePortfolioLosses "max" losses ws nRuns choice = .ok r →
        ∀ t, t < nRuns →
          r.getD t 0 ∈ losses.map (fun row => row.getD t 0)
          ∧ ∀ x ∈ losses.map (fun row => row.getD t 0), x ≤ r.getD t 0)
    ∧ (∀ m, m = "mixture" ∨ m = "choose_one" →
        ∀ r, Crml.aggregatePortfolioLosses m losses ws nRuns choice = .ok r →
          ∀ t, t < nRuns → ∃ i, i < losses.length
            ∧ r.getD t 0 = (losses.getD i []).getD t 0)
    ∧ (ws.all (·.isSome) = true → 0 < (ws.map (·.getD 0)).sum →
        Crml.normalizeMixtureWeights ws losses.length
          = (ws.map (·.getD 0)).map (· / (ws.map (·.getD 0)).sum))
    ∧ (ws.any (·.isNone) = true ∨ (ws.map (·.getD 0)).sum ≤ 0 →
        Crml.normalizeMixtureWeights ws losses.length
          = List.replicate losses.length ((losses.length : ℚ))⁻¹)
    ∧ (∀ m, m ≠ "sum" → m ≠ "max" → m ≠ "mixture" → m ≠ "choose_one" →
        Crml.aggregatePortfolioLosses m losses ws nRuns choice
          = .error ("Unsupported portfolio semantics '" ++ m ++ "'")) := by
  obtain ⟨l0, ls, rfl⟩ : ∃ l0 ls, losses = l0 :: ls :=
    match losses, hne with
    | l0 :: ls, _ => ⟨l0, ls, rfl⟩
  refine ⟨?_, ?_, ?_, ?_, ?_, ?_⟩
  · simp [Crml.aggregatePortfolioLosses, Crml.columnSum]
  · intro r hr t ht
    simp only [Crml.aggregatePortfolioLosses, String.reduceEq, if_false, if_true,
      Except.ok.injEq] at hr
    subst hr
    rw [getD_map_range _ _ _ ht]
    unfold Crml.columnMax
    simp only [List.head?_cons, Option.map_some', Option.getD_some, List.map_cons,
      List.foldl_cons, max_self]
    constructor
    · rcases foldl_max_mem (l0.getD t 0) (ls.map (fun row => row.getD t 0)) with h | h
      · rw [h]
        exact List.mem_cons_self _ _
      · exact List.mem_cons_of_mem _ h
    · intro x hx
      rcases List.mem_cons.mp hx with h | h
      · subst h
        exact (foldl_max_is_ub _ _).1
      · exact (foldl_max_is_ub _ _).2 x h
  · intro m hm r hr t ht
    rcases hm with hm | hm <;> subst hm <;>
      simp only [Crml.aggregatePortfolioLosses, String.reduceEq, if_false,
        true_or, or_true, if_true, Except.ok.injEq] at hr <;>
      subst hr <;>
      refine ⟨choice (Crml.normalizeMixtureWeights ws (l0 :: ls).length) t,
        hpick _ t, ?_⟩ <;>
      rw [getD_map_range _ _ _ ht]
  · intro hall hpos
    have hnone : ws.any (·.isNone) = false := by
      simp only [List.any_eq_false]
      intro x hx
      have hs := List.all_eq_true.mp hall x hx
      cases x with
      | none => simp at hs
      | some v => simp
    unfold Crml.normalizeMixtureWeights
    rw [hnone]
    simp only [Bool.false_eq_true, if_false]
    rw [if_neg (not_le.mpr hpos)]
  · intro h
    have hsum : (List.replicate (l0 :: ls).length (1 : ℚ)).sum
        = ((l0 :: ls).length : ℚ) := by
      rw [List.sum_replicate, nsmul_eq_mul, mul_one]
    unfold Crml.normalizeMixtureWeights
    rcases h with h | h
    · rw [h]
      simp only [if_true, ite_self]
      rw [hsum, List.map_replicate, one_div]
    · by_cases hn : ws.any (·.isNone) = true
      · rw [hn]
        simp only [if_true, ite_self]
        rw [hsum, List.map_replicate, one_div]
      · simp only [Bool.not_eq_true] at hn
        rw [hn]
        simp only [Bool.false_eq_true, if_false]
        rw [if_pos h, hsum, List.map_replicate, one_div]
  · intro m h1 h2 h3 h4
    simp [Crml.aggregatePortfolioLosses, h1, h2, h3, h4]

/-- C5 witness: concrete two-scenario stack, all branches exercised
through the `sum` identity. -/
theorem C5_aggregate_portfolio_losses_witness :
    Crml.aggregatePortfolioLosses "sum" [[1, 2], [3, 0]]
      [some (1/2), some (1/2)] 2 (fun _ t => t % 2) = .ok [4, 2] := by
  have h := (C5_aggregate_portfolio_losses [[1, 2], [3, 0]]
    [some (1/2), some (1/2)] 2 (fun _ t => t % 2)
    (by decide) (fun _ t => Nat.mod_lt t (by decide))).1
  rw [h]
  norm_num [List.range_succ]

/-- C2 counterexample: with a copula over target `ctl-a` only, the
non-target control `ctl-b` receives no sampled state at all, and the
multiplier computation then treats it as always available — its
frequency multiplier is 0 on every run, although a Bernoulli draw at its
reliability 0 would leave the multiplier at 1.  This refutes the claim
that non-target controls still get an independent
Bernoulli(reliability) per-trial state. -/
theorem C2_counterexample :
    Crml.alistGet (Crml.sampleControlState c2info ["ctl-a"] true c2u c2r) "ctl-b" = none
    ∧ (Crml.controlMultipliersForScenario [c2ctrlB]
        (Crml.sampleControlState c2info ["ctl-a"] true c2u c2r) 2).1 = [0, 0] := by
  constructor
  · decide
  · simp [Crml.controlMultipliersForScenario, Crml.sampleControlState, Crml.alistGet,
      Crml.pyLower, c2info, c2ctrlB, c2u, c2r, List.range_succ]

/-- C2 amended: when a copula correlation matrix is present with a
non-empty target list, `_sample_control_state` samples *only* the target
controls (each thresholded against its reliability) — any non-target
control is absent from the returned state map; in the no-copula branch
every control of `control_info` is sampled; and
`_control_multipliers_for_scenario` treats a control with no sampled
state exactly as a control whose state is all-ones (always available). -/
theorem C2_control_state_amended :
    (∀ (info : List (String × Crml.ControlInfo)) (targets : List String)
        (u r : List (List ℚ)), targets ≠ [] →
      (Crml.sampleControlState info targets true u r).map Prod.fst = targets
      ∧ ∀ cid, cid ∉ targets →
          Crml.alistGet (Crml.sampleControlState info targets true u r) cid = none)
    ∧ (∀ (info : List (String × Crml.ControlInfo)) (u r : List (List ℚ)),
        info.length ≤ r.length →
        (Crml.sampleControlState info [] false u r).map Prod.fst
          = info.map Prod.fst)
    ∧ (∀ (ctrl : Crml.RuntimeControl) (state : List (String × List Bool)) (n : Nat),
        Crml.alistGet state ctrl.id = none →
        Crml.controlMultipliersForScenario [ctrl] state n
          = Crml.controlMultipliersForScenario [ctrl]
              [(ctrl.id, List.replicate n true)] n) := by
  refine ⟨?_, ?_, ?_⟩
  · intro info targets u r htne
    have hbranch :
        Crml.sampleControlState info targets true u r
          = targets.enum.map (fun ic =>
              (ic.2, u.map (fun row =>
                decide (row.getD ic.1 0
                  ≤ ((Crml.alistGet info ic.2).map (·.reliability)).getD 1)))) := by
      unfold Crml.sampleControlState
      rw [if_pos ⟨htne, rfl⟩]
    constructor
    · rw [hbranch, List.map_map]
      have : (Prod.fst ∘ fun ic : Nat × String =>
          (ic.2, u.map (fun row =>
            decide (row.getD ic.1 0
              ≤ ((Crml.alistGet info ic.2).map (·.reliability)).getD 1)))) = Prod.snd := by
        funext ic
        rfl
      rw [this, List.enum_map_snd]
    · intro cid hcid
      rw [hbranch]
      unfold Crml.alistGet
      rw [List.find?_eq_none.mpr, Option.map_none']
      intro p hp
      obtain ⟨⟨i, s⟩, hmem, hps⟩ := List.mem_map.mp hp
      have hs : s ∈ targets := by
        rw [← List.enum_map_snd targets]
        exact List.mem_map_of_mem Prod.snd hmem
      have : p.1 = s := by rw [← hps]
      simp only [this, decide_eq_true_eq]
      intro he
      exact hcid (he ▸ hs)
  · intro info u r hlen
    unfold Crml.sampleControlState
    rw [if_neg (by simp)]
    rw [List.map_map]
    have : (Prod.fst ∘ fun cr : (String × Crml.ControlInfo) × List ℚ =>
        (cr.1.1, cr.2.map (fun x => decide (x ≤ cr.1.2.reliability))))
        = (Prod.fst ∘ Prod.fst) := by
      funext cr
      rfl
    rw [this, ← List.map_map, List.map_fst_zip info r hlen]
  · intro ctrl state n hnone
    unfold Crml.controlMultipliersForScenario
    simp only [List.foldl_cons, List.foldl_nil, hnone, Option.getD_none]
    have : Crml.alistGet [(ctrl.id, List.replicate n true)] ctrl.id
        = some (List.replicate n true) := by
      unfold Crml.alistGet
      simp
    rw [this, Option.getD_some]

/-- C2 amended witness: instantiated at the concrete copula inputs. -/
theorem C2_control_state_amended_witness :
    (Crml.sampleControlState c2info ["ctl-a"] true c2u c2r).map Prod.fst = ["ctl-a"]
    ∧ Crml.alistGet (Crml.sampleControlState c2info ["ctl-a"] true c2u c2r) "ctl-c" = none
    ∧ Crml.controlMultipliersForScenario [c2ctrlB] [] 2
      = Crml.controlMultipliersForScenario [c2ctrlB]
          [(c2ctrlB.id, List.replicate 2 true)] 2 := by
  have h := C2_control_state_amended
  refine ⟨(h.1 c2info ["ctl-a"] c2u c2r (by decide)).1, ?_, ?_⟩
  · exact (h.1 c2info ["ctl-a"] c2u c2r (by decide)).2 "ctl-c" (by decide)
  · exact h.2.2 c2ctrlB [] 2 (by decide)

/- ----------------------------------------------------------------
   C7
---------------------------------------------------------------- -/
/-- C7 counterexample: for `source_kind="yaml"` with malformed YAML text
(e.g. `plan_portfolio("a: [", source_kind="yaml")`), `yaml.safe_load`
at `portfolio_planner.py:265` is not wrapped in `try/except`, so the
parse exception escapes `plan_portfolio` to its caller instead of being
returned as a structured `PlanReport` — refuting the claim that the
planner never raises. -/
theorem C7_counterexample :
    Crml.planPortfolioEntry "yaml" none
      (.parseError ("while parsing a flow node: expected the node content"))
      .valid ⟨true, [], [], none⟩
    = .error ("while parsing a flow node: expected the node content") := rfl

/-- C7 amended: for `source_kind="path"` every failure (I/O error, YAML
parse error, non-mapping document, schema-invalid document) is returned
as a `PlanReport` with `ok=false` and one structured error entry, and
for `source_kind="yaml"` non-mapping and schema-invalid inputs are
likewise returned structurally — but a YAML parse error under
`source_kind="yaml"` escapes as an exception. -/
theorem C7_planner_raising_amended :
    (∀ (m : String) (parse : Crml.YamlParse) (schema : Crml.SchemaOutcome)
        (rest : Crml.PlanReport),
      Crml.planPortfolioEntry "path" (some m) parse schema rest
        = .ok ⟨false, [⟨"error", "(io)", m⟩], [], none⟩)
    ∧ (∀ (m : String) (schema : Crml.SchemaOutcome) (rest : Crml.PlanReport),
      Crml.planPortfolioEntry "path" none (.parseError m) schema rest
        = .ok ⟨false, [⟨"error", "(io)", m⟩], [], none⟩)
    ∧ (∀ (schema : Crml.SchemaOutcome) (rest : Crml.PlanReport),
      Crml.planPortfolioEntry "path" none .nonMapping schema rest
        = .ok ⟨false, [⟨"error", "(io)",
            "YAML document must be a mapping/object at top-level"⟩], [], none⟩)
    ∧ (∀ (m : String) (rest : Crml.PlanReport),
      Crml.planPortfolioEntry "path" none .mapping (.invalid m) rest
        = .ok ⟨false, [⟨"error", "(schema)", m⟩], [], none⟩)
    ∧ (∀ (ioFail : Option String) (schema : Crml.SchemaOutcome)
        (rest : Crml.PlanReport),
      Crml.planPortfolioEntry "yaml" ioFail .nonMapping schema rest
        = .ok ⟨false, [⟨"error", "(root)", "YAML must be a mapping"⟩], [], none⟩)
    ∧ (∀ (ioFail : Option String) (m : String) (rest : Crml.PlanReport),
      Crml.planPortfolioEntry "yaml" ioFail .mapping (.invalid m) rest
        = .ok ⟨false, [⟨"error", "(schema)", m⟩], [], none⟩)
    ∧ (∀ (ioFail : Option String) (m : String) (schema : Crml.SchemaOutcome)
        (rest : Crml.PlanReport),
      Crml.planPortfolioEntry "yaml" ioFail (.parseError m) schema rest
        = .error m)
    ∧ (∀ (ioFail : Option String) (parse : Crml.YamlParse) (m : String)
        (rest : Crml.PlanReport),
      Crml.planPortfolioEntry "data" ioFail parse (.invalid m) rest
        = .ok ⟨false, [⟨"error", "(schema)", m⟩], [], none⟩) := by
  refine ⟨?_, ?_, ?_, ?_, ?_, ?_, ?_, ?_⟩ <;>
    intros <;> rfl

/-- C8 counterexample: with both direct parameters and `single_losses`
supplied, the lognormal branch of `generate_severity` silently takes the
calibration branch (ignoring `median`/`sigma`) instead of failing —
refuting the claim that this combination is an error for severity
generation. -/
theorem C8_counterexample :
    Crml.lognormalResolveParams c8params "USD" c8convert
      = .fromCalibration [100, 200] := by
  simp [Crml.lognormalResolveParams, c8params, c8convert, Crml.currencyOr]

/-- C8 amended: whenever `single_losses` is present, the lognormal branch
never raises — it calibrates (or swallows a calibration failure into
zeros), silently ignoring any direct parameters also supplied.  The
only direct-parameter conflict that raises is `median` together with
`mu` when `single_losses` is absent.  (The combination the claim
describes is instead rejected by the language-level JSON-schema
validator, not by severity generation.) -/
theorem C8_severity_params_amended (p : Crml.SeverityParameters)
    (base : String) (convert : ℚ → String → String → ℚ) :
    (p.single_losses ≠ none → ∀ m,
      Crml.lognormalResolveParams p base convert ≠ .raised m)
    ∧ (p.single_losses = none → p.median ≠ none → p.mu ≠ none →
      Crml.lognormalResolveParams p base convert
        = .raised ("Cannot use both median and mu. Choose one (median is recommended).")) := by
  constructor
  · intro hs m
    obtain ⟨losses, hl⟩ := Option.ne_none_iff_exists'.mp hs
    unfold Crml.lognormalResolveParams
    rw [hl]
    by_cases h2 : losses.length < 2
    · simp [h2]
    · simp only [if_neg h2]
      by_cases h3 : (losses.map (fun v =>
          convert v (Crml.currencyOr p.currency base) base)).any (· ≤ 0)
      · simp [h3]
      · simp [h3]
  · intro hs hmed hmu
    unfold Crml.lognormalResolveParams
    rw [hs]
    simp only [ne_eq]
    rw [if_pos ⟨hmed, hmu⟩]

/-- C8 amended witness: calibration branch never raises at the concrete
input, and `median`+`mu` without `single_losses` raises. -/
theorem C8_severity_params_amended_witness :
    Crml.lognormalResolveParams c8params "USD" c8convert
      ≠ .raised ("Lognormal distribution requires sigma")
    ∧ Crml.lognormalResolveParams ⟨some 1, none, some 2, some 1, none⟩ "USD" c8convert
      = .raised ("Cannot use both median and mu. Choose one (median is recommended).") := by
  constructor
  · exact (C8_severity_params_amended c8params "USD" c8convert).1 (by decide) _
  · exact (C8_severity_params_amended ⟨some 1, none, some 2, some 1, none⟩ "USD"
      c8convert).2 rfl (by decide) (by decide)

/- ----------------------------------------------------------------
   C6
---------------------------------------------------------------- -/
/-- Members of an enumerated list project back into the list. -/
theorem enum_snd_mem {α : Type} (l : List α) (a : Nat × α) (h : a ∈ l.enum) :
    a.2 ∈ l := by
  rw [← List.enum_map_snd l]
  exact List.mem_map_of_mem Prod.snd h

/-- Every member of a list occurs in its enumeration. -/
theorem exists_enum_of_mem {α : Type} (l : List α) (x : α) (h : x ∈ l) :
    ∃ i, (i, x) ∈ l.enum := by
  rw [← List.enum_map_snd l] at h
  obtain ⟨⟨i, y⟩, hm, he⟩ := List.mem_map.mp h
  subst he
  exact ⟨i, hm⟩

/-- The missing-weight index list is empty iff every weight is present. -/
theorem enum_none_filter_nil_iff (ws : List (Option ℚ)) :
    (ws.enum.filter (fun iw => iw.2.isNone)).map Prod.fst = []
      ↔ ws.all (·.isSome) = true := by
  rw [List.map_eq_nil_iff, List.filter_eq_nil_iff, List.all_eq_true]
  constructor
  · intro h x hx
    obtain ⟨i, hi⟩ := exists_enum_of_mem ws x hx
    have := h (i, x) hi
    cases x with
    | none => simp at this
    | some v => simp
  · intro h a ha
    have hx := enum_snd_mem ws a ha
    have := h a.2 hx
    obtain ⟨i, x⟩ := a
    cases x with
    | none => simp at this
    | some v => simp

/-- C6 counterexample: a `mixture` portfolio whose scenario references
carry no weights at all plans successfully — `plan_portfolio`/`plan_bundle`
perform no weight validation (the presence/sum-to-1 check lives only in
`validate_crml_portfolio`, which the planner never invokes), refuting
the claim that planning fails for such portfolios. -/
theorem C6_counterexample :
    (Crml.planPortfolioDoc (some "P") c6portfolio c6catalogLoad c6assessLoad
      c6scenarioLoad).ok = true
    ∧ (Crml.planPortfolioDoc (some "P") c6portfolio c6catalogLoad c6assessLoad
      c6scenarioLoad).plan.isSome = true
    ∧ c6portfolio.semantics.method = "mixture"
    ∧ c6portfolio.scenarios.all (fun s => s.weight = none) = true := by
  refine ⟨by decide, by decide, rfl, by decide⟩

/-- C6 amended: the weight rule the claim describes is enforced by the
document validator, not the planner: for method `mixture`/`choose_one`,
`validate_crml_portfolio`'s weight block reports no error iff every
scenario carries a weight and the weights sum to 1.0 within `1e-9`
(while the planner itself, per the counterexample, plans regardless). -/
theorem C6_weight_validation_amended (method : String) (ws : List (Option ℚ))
    (h : method = "mixture" ∨ method = "choose_one") :
    Crml.weightSemanticsMessages method ws = []
      ↔ ws.all (·.isSome) = true
        ∧ |(ws.filterMap id).sum - 1| ≤ Crml.tol1e9 := by
  simp only [Crml.weightSemanticsMessages, if_pos h]
  rw [List.append_eq_nil]
  constructor
  · rintro ⟨h1, h2⟩
    constructor
    · by_cases hc : (ws.enum.filter (fun iw => iw.2.isNone)).map Prod.fst ≠ []
      · rw [if_pos hc] at h1
        simp at h1
      · exact (enum_none_filter_nil_iff ws).mp (not_not.mp hc)
    · by_cases hc : ¬ |(ws.filterMap id).sum - 1| ≤ Crml.tol1e9
      · rw [if_pos hc] at h2
        simp at h2
      · exact not_not.mp hc
  · rintro ⟨hall, hsum⟩
    rw [if_neg (not_not_intro ((enum_none_filter_nil_iff ws).mpr hall)),
      if_neg (not_not_intro hsum)]
    exact ⟨rfl, rfl⟩

/-- C6 amended witness: two present weights of 0.5 pass the validator's
weight block. -/
theorem C6_weight_validation_amended_witness :
    Crml.weightSemanticsMessages "mixture" [some (1/2), some (1/2)] = [] :=
  (C6_weight_validation_amended "mixture" [some (1/2), some (1/2)]
    (Or.inl rfl)).mpr
    ⟨by decide, by norm_num [List.filterMap_cons, Crml.tol1e9]⟩

/-- C4: the planner produces a plan (with `ok=true`) iff the accumulated
error list is empty; any planning error suppresses the plan while
warnings never do; and errors from independent steps accumulate rather
than short-circuiting (the concrete two-defect portfolio reports both
its catalog error and its scenario error). -/
theorem C4_plan_iff_no_errors :
    (∀ (m : Option String) (pf : Crml.Portfolio)
        (cl : String → Crml.CatalogLoadOutcome)
        (al : String → Crml.AssessLoadOutcome)
        (sl : String → Crml.ScenarioLoadOutcome),
      ((Crml.planPortfolioDoc m pf cl al sl).ok = true
          ↔ (Crml.planPortfolioDoc m pf cl al sl).errors = [])
      ∧ ((Crml.planPortfolioDoc m pf cl al sl).plan.isSome = true
          ↔ (Crml.planPortfolioDoc m pf cl al sl).errors = []))
    ∧ (Crml.planPortfolioDoc (some "P") c4portfolio c4catalogLoad c4assessLoad
        c4scenarioLoad).errors.length = 2 := by
  constructor
  · intro m pf cl al sl
    simp only [Crml.planPortfolioDoc]
    split
    · rename_i h
      simp_all
    · rename_i h
      simp_all
  · decide

/- ----------------------------------------------------------------
   C3
---------------------------------------------------------------- -/
/-- The warnings of a planned scenario always start with the
per-organization basis warning block. -/
theorem planScenario_warnings_structure
    (an : List (String × Crml.Asset)) (aan : List String)
    (pcs : List (String × Crml.PortfolioControl))
    (ab : List (String × Crml.ControlAssessment))
    (idx : Nat) (sref : Crml.ScenarioRef) (doc : Crml.ScenarioDoc) :
    ∃ rest, (Crml.planScenario an aan pcs ab idx sref (.ok doc)).warnings
      = (if doc.basis = "per_organization_per_year"
            ∧ sref.binding.applies_to_assets ≠ none then
          [⟨"warning",
            "portfolio.scenarios[" ++ toString idx ++ "].binding.applies_to_assets",
            "Scenario frequency basis is per_organization_per_year; asset binding does not affect cardinality (cardinality stays 1). If you intended per-asset scaling, consider per_asset_unit_per_year."⟩]
        else []) ++ rest := by
  simp only [Crml.planScenario]
  split
  · exact ⟨[], (List.append_nil _).symm⟩
  · split
    · exact ⟨[], (List.append_nil _).symm⟩
    · exact ⟨_, List.append_assoc _ _ _⟩

/-- C3: for a loaded scenario document, basis `per_asset_unit_per_year`
resolves cardinality to the sum of the bound assets' cardinalities and
an empty binding is a planning error (no resolved scenario); basis
`per_organization_per_year` resolves cardinality to exactly 1 regardless
of any asset binding, with a warning on the binding path whenever the
binding was set explicitly. -/
theorem C3_cardinality_resolution
    (assets_by_name : List (String × Crml.Asset)) (all_asset_names : List String)
    (pcs : List (String × Crml.PortfolioControl))
    (ab : List (String × Crml.ControlAssessment))
    (idx : Nat) (sref : Crml.ScenarioRef) (doc : Crml.ScenarioDoc) :
    (doc.basis = "per_asset_unit_per_year" →
      sref.binding.applies_to_assets.getD all_asset_names = [] →
      (Crml.planScenario assets_by_name all_asset_names pcs ab idx sref
        (.ok doc)).resolved = none
      ∧ (Crml.planScenario assets_by_name all_asset_names pcs ab idx sref
        (.ok doc)).errors ≠ [])
    ∧ (doc.basis = "per_asset_unit_per_year" →
        ∀ rs, (Crml.planScenario assets_by_name all_asset_names pcs ab idx sref
            (.ok doc)).resolved = some rs →
          rs.cardinality
            = ((sref.binding.applies_to_assets.getD all_asset_names).map (fun a =>
                ((Crml.alistGet assets_by_name a).map (·.cardinality)).getD 0)).sum)
    ∧ (doc.basis = "per_organization_per_year" →
        (∀ rs, (Crml.planScenario assets_by_name all_asset_names pcs ab idx sref
            (.ok doc)).resolved = some rs → rs.cardinality = 1)
        ∧ (sref.binding.applies_to_assets ≠ none →
            ∃ w ∈ (Crml.planScenario assets_by_name all_asset_names pcs ab idx sref
              (.ok doc)).warnings,
              w.level = "warning"
              ∧ w.path = "portfolio.scenarios[" ++ toString idx
                  ++ "].binding.applies_to_assets")) := by
  refine ⟨?_, ?_, ?_⟩
  · intro hb hbound
    simp only [Crml.planScenario, hb, hbound, String.reduceEq]
    simp
  · intro hb rs hrs
    simp only [Crml.planScenario, hb, String.reduceEq] at hrs
    split at hrs
    · simp at hrs
    · split at hrs
      · simp at hrs
      · rename_i card cardWarns heq
        simp only [if_true] at heq
        split at heq
        · simp at heq
        · simp only [Except.ok.injEq, Prod.mk.injEq] at heq
          simp only [Option.some.injEq] at hrs
          subst hrs
          exact heq.1.symm
  · intro hb
    constructor
    · intro rs hrs
      simp only [Crml.planScenario, hb, String.reduceEq] at hrs
      split at hrs
      · simp at hrs
      · split at hrs
        · simp at hrs
        · rename_i card cardWarns heq
          simp only [if_false] at heq
          simp only [Except.ok.injEq, Prod.mk.injEq] at heq
          simp only [Option.some.injEq] at hrs
          subst hrs
          exact heq.1.symm
    · intro hbind
      obtain ⟨rest, hw⟩ := planScenario_warnings_structure assets_by_name
        all_asset_names pcs ab idx sref doc
      rw [hw, if_pos ⟨hb, hbind⟩]
      exact ⟨_, List.mem_append_left _ (List.mem_singleton.mpr rfl), rfl, rfl⟩

/-- C3 witness: summed cardinality for a two-asset binding and the
empty-binding error, at concrete inputs. -/
theorem C3_cardinality_resolution_witness :
    c3rs.cardinality
      = ((c3sref.binding.applies_to_assets.getD ["a1", "a2"]).map (fun a =>
          ((Crml.alistGet c3assets a).map (·.cardinality)).getD 0)).sum
    ∧ (Crml.planScenario c3assets ["a1", "a2"] [] [] 0 c3srefEmpty
        (.ok c3doc)).resolved = none
    ∧ (Crml.planScenario c3assets ["a1", "a2"] [] [] 0 c3srefEmpty
        (.ok c3doc)).errors ≠ [] := by
  refine ⟨?_, ?_, ?_⟩
  · exact (C3_cardinality_resolution c3assets ["a1", "a2"] [] [] 0 c3sref
      c3doc).2.1 rfl c3rs (by decide)
  · exact ((C3_cardinality_resolution c3assets ["a1", "a2"] [] [] 0 c3srefEmpty
      c3doc).1 rfl (by decide)).1
  · exact ((C3_cardinality_resolution c3assets ["a1", "a2"] [] [] 0 c3srefEmpty
      c3doc).1 rfl (by decide)).2

/-- Every control produced by `resolveControl` satisfies the
combined-value contract. -/
theorem resolveControl_combinedOk
    (pcs : List (String × Crml.PortfolioControl))
    (ab : List (String × Crml.ControlAssessment)) (idx : Nat)
    (cn : Crml.CtrlNorm) (c : Crml.ResolvedScenarioControl)
    (w : List Crml.PlanMessage)
    (h : Crml.resolveControl pcs ab idx cn = .ok (c, w)) : combinedOk c := by
  simp only [Crml.resolveControl] at h
  split at h
  · simp at h
  · simp only [Except.ok.injEq, Prod.mk.injEq] at h
    obtain ⟨hc, hw⟩ := h
    subst hc
    refine ⟨rfl, rfl, rfl, ?_, ?_, ?_⟩
    · intro x hx
      cases hinv : (Crml.inventoryLookup pcs ab cn.id).1 with
      | none => simp [hinv] at hx
      | some e =>
        simp only [hinv, Option.map_some', Option.some.injEq] at hx
        exact hx ▸ clamp01_mem_unit _
    · intro x hx
      cases hinv : (Crml.inventoryLookup pcs ab cn.id).2.1 with
      | none => simp [hinv] at hx
      | some v =>
        simp only [hinv, Option.map_some', Option.some.injEq] at hx
        exact hx ▸ clamp01_mem_unit _
    · intro x hx
      simp only [Option.some.injEq] at hx
      exact hx ▸ clamp01_mem_unit _

/-- Every control accumulated by the control-resolution loop satisfies
the combined-value contract. -/
theorem resolveControls_combinedOk
    (pcs : List (String × Crml.PortfolioControl))
    (ab : List (String × Crml.ControlAssessment)) (idx : Nat)
    (cns : List Crml.CtrlNorm) (c : Crml.ResolvedScenarioControl)
    (hc : c ∈ (Crml.resolveControls pcs ab idx cns).2.2) : combinedOk c := by
  induction cns with
  | nil => simp [Crml.resolveControls] at hc
  | cons cn rest ih =>
    unfold Crml.resolveControls at hc
    cases hres : Crml.resolveControl pcs ab idx cn with
    | error e =>
      rw [hres] at hc
      exact ih hc
    | ok cw =>
      rw [hres] at hc
      rcases List.mem_cons.mp hc with h | h
      · exact h ▸ resolveControl_combinedOk pcs ab idx cn cw.1 cw.2 hres
      · exact ih h

/-- Every control of a scenario resolved by `planScenario` satisfies the
combined-value contract. -/
theorem planScenario_controls_combinedOk
    (an : List (String × Crml.Asset)) (aan : List String)
    (pcs : List (String × Crml.PortfolioControl))
    (ab : List (String × Crml.ControlAssessment))
    (idx : Nat) (sref : Crml.ScenarioRef) (outcome : Crml.ScenarioLoadOutcome)
    (rs : Crml.ResolvedScenario)
    (h : (Crml.planScenario an aan pcs ab idx sref outcome).resolved = some rs)
    (c : Crml.ResolvedScenarioControl) (hc : c ∈ rs.controls) : combinedOk c := by
  cases outcome with
  | notFound => simp [Crml.planScenario] at h
  | invalid m => simp [Crml.planScenario] at h
  | ok doc =>
    simp only [Crml.planScenario] at h
    split at h
    · simp at h
    · split at h
      · simp at h
      · simp only [Option.some.injEq] at h
        subst h
        exact resolveControls_combinedOk pcs ab idx doc.controls_norm c hc

/-- C9: every resolved scenario control in any produced execution plan
satisfies the combined-value contract: combined implementation
effectiveness is `clamp01(inv_eff × eff_factor × potency_factor)`,
combined coverage is `clamp01(inv_coverage × coverage_factor)`, combined
reliability is `clamp01(inv_reliability default 1)`, with missing factors
defaulting to the multiplicative identity, and every present combined
value lies in `[0, 1]`. -/
theorem C9_combined_control_values
    (m : Option String) (pf : Crml.Portfolio)
    (cl : String → Crml.CatalogLoadOutcome)
    (al : String → Crml.AssessLoadOutcome)
    (sl : String → Crml.ScenarioLoadOutcome)
    (p : Crml.PortfolioExecutionPlan)
    (hp : (Crml.planPortfolioDoc m pf cl al sl).plan = some p)
    (rs : Crml.ResolvedScenario) (hrs : rs ∈ p.scenarios)
    (c : Crml.ResolvedScenarioControl) (hc : c ∈ rs.controls) : combinedOk c := by
  simp only [Crml.planPortfolioDoc] at hp
  split at hp
  · simp at hp
  · simp only [Option.some.injEq] at hp
    subst hp
    obtain ⟨x, hx, hres⟩ := List.mem_filterMap.mp hrs
    obtain ⟨is, his, hxeq⟩ := List.mem_map.mp hx
    subst hxeq
    exact planScenario_controls_combinedOk _ _ _ _ is.1 is.2 _ rs hres c hc

/-- C9 witness: the combined-value contract holds for the control of the
concretely planned portfolio. -/
theorem C9_combined_control_values_witness : combinedOk c9ctrl := by
  have hc : Crml.resolveControl
      [("cap:edr", (⟨"cap:edr", some (3/5), some ⟨1, "applications"⟩,
        some (9/10), some "frequency"⟩ : Crml.PortfolioControl))] [] 0
      ⟨"cap:edr", some 2⁻¹, none, none⟩ = .ok (c9ctrl, []) := by
    simp [Crml.resolveControl, Crml.inventoryLookup, Crml.alistGet, c9ctrl,
      Crml.clamp01, min_def, max_def]
    norm_num
  have hscen : Crml.planScenario [("srv", ⟨"srv", 2, none, none⟩)] ["srv"]
      [("cap:edr", ⟨"cap:edr", some (3/5), some ⟨1, "applications"⟩,
        some (9/10), some "frequency"⟩)] [] 0 ⟨"s1", "s1.yaml", some 1, ⟨none⟩⟩
      (.ok ⟨some "S", "per_organization_per_year",
        [⟨"cap:edr", some 2⁻¹, none, none⟩]⟩)
      = ⟨[], [], some c9rs⟩ := by
    simp [Crml.planScenario, Crml.resolveControls, hc, Crml.alistGet, c9rs]
  have hplan : (Crml.planPortfolioDoc (some "P") c9portfolio c9catalogLoad
      c9assessLoad c9scenarioLoad).plan = some c9plan := by
    simp [Crml.planPortfolioDoc, Crml.loadCatalogs, Crml.loadAssessments,
      Crml.buildInventory, Crml.normalizeDependency, Crml.alistInsert,
      c9portfolio, c9scenarioLoad, c9catalogLoad, c9assessLoad, c9plan,
      List.enum, List.enumFrom, hscen]
  exact C9_combined_control_values (some "P") c9portfolio c9catalogLoad
    c9assessLoad c9scenarioLoad c9plan hplan c9rs
    (by simp [c9plan]) c9ctrl (by simp [c9rs])
